import Mathlib

/-!
Shallow embedding of the Audio Endpoint & Session Control Manager of
`src/main.rs` (struct `AudioApp` and its `impl` block).

Modelling conventions:
* `f32` volume values are modelled as exact rationals (`Rat`): the embedded
  operations only store, compare and clamp volumes, never perform rounding
  arithmetic, so every value that appears (0.5, 1.0, 1.5, ...) is exact.
* The external `windows_volume_control::AudioController` handle is modelled by
  a structure holding the result of `get_session_by_name("master")`: either
  `some` session (resolvable) or `none` (session vanished).  The session
  carries the OS-side volume and mute state, which the app's setters mutate.
* The OS audio host (`cpal`) is an input: `refresh_devices` receives the list
  of device names the host currently reports.
* `std::process::Command::spawn` side effects are made observable by returning
  the list of spawned command strings alongside the new state; the Rust
  functions' actual return values are `()`, so nothing else flows back.
* Command strings are modelled as `List Char` so that the escaping functions
  (Rust `str::replace` with single-character patterns) are structurally
  recursive and provable.
-/

/-- The single-quote character `'` (PowerShell single-quote delimiter). -/
def sqc : Char := Char.ofNat 39

/-- The double-quote character. -/
def dqc : Char := Char.ofNat 34

/-- The backslash character. -/
def bsc : Char := Char.ofNat 92

/-- OS-side state of the "master" audio session (volume and mute as the
operating system currently holds them). -/
structure SessionState where
  volume : Rat
  muted : Bool
deriving DecidableEq

/-- Model of the `windows_volume_control::AudioController` handle: it exposes
`get_session_by_name("master")`, which either resolves to the master session
or fails.  `session = none` models a vanished/unresolvable session. -/
structure AudioController where
  session : Option SessionState
deriving DecidableEq

/-- The `AudioApp` struct of `src/main.rs` (lines 30-36): device list, optional
selection index, cached volume, cached mute flag, and the optional controller
handle. -/
structure AudioApp where
  device_names : List String
  selected_device_idx : Option Nat
  volume : Rat
  is_muted : Bool
  audio_controller : Option AudioController
deriving DecidableEq

/-- The session `get_session_by_name("master")` resolves to in state `s`, if
the controller handle is present and the session is resolvable. -/
def sessionOf (s : AudioApp) : Option SessionState :=
  s.audio_controller.bind fun c => c.session

/-- `AudioApp::update_volume` (main.rs lines 93-102), called
`refresh_session_state()` in the spec: if the controller is present and the
master session resolves, copy the session's volume and mute into the cache;
otherwise do nothing. -/
def update_volume (s : AudioApp) : AudioApp :=
  match s.audio_controller with
  | none => s
  | some c =>
    match c.session with
    | none => s
    | some sess => { s with volume := sess.volume, is_muted := sess.muted }

/-- `AudioApp::set_volume` (main.rs lines 104-113): if the controller is
present and the master session resolves, call `session.setVolume(volume)`
(modelled as storing `volume` into the OS session) and cache `volume` locally.
No clamping appears anywhere in the source. -/
def set_volume (s : AudioApp) (volume : Rat) : AudioApp :=
  match s.audio_controller with
  | none => s
  | some c =>
    match c.session with
    | none => s
    | some sess =>
      { s with
        volume := volume,
        audio_controller := some { c with session := some { sess with volume := volume } } }

/-- `AudioApp::toggle_mute` (main.rs lines 115-125): if the controller is
present and the master session resolves, read the session's current mute state
(`session.getMute()`, the fresh OS value, not the cache), negate it, apply it
to the session and mirror it into the cache. -/
def toggle_mute (s : AudioApp) : AudioApp :=
  match s.audio_controller with
  | none => s
  | some c =>
    match c.session with
    | none => s
    | some sess =>
      let new_mute_state := !sess.muted
      { s with
        is_muted := new_mute_state,
        audio_controller := some { c with session := some { sess with muted := new_mute_state } } }

/-- `AudioApp::refresh_devices` (main.rs lines 139-162): replace the device
list with the names the OS host currently reports (`osNames`), then clear the
selection only when it is no longer a valid index into the new list. -/
def refresh_devices (s : AudioApp) (osNames : List String) : AudioApp :=
  let s1 := { s with device_names := osNames }
  match s1.selected_device_idx with
  | some idx => if idx ≥ s1.device_names.length then { s1 with selected_device_idx := none } else s1
  | none => s1

/-- Clamp into `[0, 1]`.  Modelled from the spec: "clamps/validates `v` into
`[0.0, 1.0]` before applying" — stated for comparison with the source's
`set_volume`, which contains no such operation. -/
def clampSpec (v : Rat) : Rat := max 0 (min v 1)

/-- Rust `device_name.replace("'", "''")` (main.rs lines 209 and 228): every
single quote in the name is doubled (PowerShell single-quoted-string escape). -/
def escapeSQ : List Char → List Char
  | [] => []
  | c :: cs => if c = sqc then sqc :: sqc :: escapeSQ cs else c :: escapeSQ cs

/-- Rust `device_name.replace("\"", "\\\"")` (main.rs line 217): every double
quote in the name is preceded by a backslash. -/
def escapeDQ : List Char → List Char
  | [] => []
  | c :: cs => if c = dqc then bsc :: dqc :: escapeDQ cs else c :: escapeDQ cs

/-- Text of `ps_command1` (main.rs lines 205-210) before the interpolated
name; ends with the opening single quote of the `-eq` argument. -/
def psPre1 : String :=
  "if (Get-Command Get-AudioDevice -ErrorAction SilentlyContinue) \x7b Get-AudioDevice -List | Where-Object \x7b $_.Name -eq \x27"

/-- Text of `ps_command1` after the interpolated name; starts with the closing
single quote of the `-eq` argument. -/
def psPost1 : String := "\x27 \x7d | Set-AudioDevice \x7d"

/-- `ps_command1` (main.rs lines 205-210): the AudioDeviceCmdlets strategy,
with the device name single-quote-escaped. -/
def psCommand1 (name : List Char) : List Char :=
  psPre1.toList ++ escapeSQ name ++ psPost1.toList

/-- Text of `ps_command2` (main.rs lines 213-218) before the interpolated
name; ends with the opening double quote of the `/SetDefault` argument. -/
def psPre2 : String :=
  "if (Test-Path \x27C:\x5cWindows\x5cSoundVolumeView.exe\x27) \x7b C:\x5cWindows\x5cSoundVolumeView.exe /SetDefault \x22"

/-- Text of `ps_command2` after the interpolated name. -/
def psPost2 : String := "\x22 all \x7d"

/-- `ps_command2` (main.rs lines 213-218): the SoundVolumeView strategy, with
the device name double-quote-escaped. -/
def psCommand2 (name : List Char) : List Char :=
  psPre2.toList ++ escapeDQ name ++ psPost2.toList

/-- Text of `ps_command3` (main.rs lines 221-229) before the interpolated
name; ends with the opening single quote and the leading `*` of the `-like`
pattern. -/
def psPre3 : String :=
  "$devices = Get-WmiObject -Class Win32_SoundDevice; foreach ($device in $devices) \x7b if ($device.Name -like \x27*"

/-- Text of `ps_command3` after the interpolated name; starts with the
trailing `*` and the closing single quote of the `-like` pattern. -/
def psPost3 : String := "*\x27) \x7b $device.SetDefault() \x7d \x7d"

/-- `ps_command3` (main.rs lines 221-229): the WMI substring-match strategy,
with the device name single-quote-escaped. -/
def psCommand3 (name : List Char) : List Char :=
  psPre3.toList ++ escapeSQ name ++ psPost3.toList

/-- `full_command` (main.rs line 232): the three strategy commands joined by
the PowerShell statement separator `" ; "` into one script, spawned as a
single `powershell -Command` process. -/
def fullCommand (name : List Char) : List Char :=
  psCommand1 name ++ " ; ".toList ++ psCommand2 name ++ " ; ".toList ++ psCommand3 name

/-- `AudioApp::set_default_device_winapi` (main.rs lines 177-196): the native
strategy is a stub that unconditionally returns
`Err("Using PowerShell fallback")`. -/
def set_default_device_winapi (_name : List Char) : Except String Unit :=
  Except.error "Using PowerShell fallback"

/-- Environment of the spawned PowerShell script: which optional tools are
present (`Get-Command Get-AudioDevice` succeeds; `Test-Path
C:\Windows\SoundVolumeView.exe` is true) and whether each shell strategy, when
run, actually changes the default device.  The Rust code never observes any of
these: the process is spawned fire-and-forget and its result discarded. -/
structure ShellEnv where
  cmdletAvailable : Bool
  svvPresent : Bool
  cmdletSucceeds : Bool
  svvSucceeds : Bool
  wmiSucceeds : Bool
deriving DecidableEq

/-- The four switch strategies of the spec's fallback chain, in order:
1 native winapi, 2 AudioDeviceCmdlets, 3 SoundVolumeView, 4 WMI. -/
inductive Strategy
  | winapi
  | cmdlet
  | svv
  | wmi
deriving DecidableEq

/-- `AudioApp::set_default_device_powershell` (main.rs lines 199-238): builds
`full_command` and spawns one `powershell -Command full_command` process with
`let _ = ... spawn()` — the result is discarded and the function returns `()`.
The embedding returns the spawned command strings; the state is untouched. -/
def set_default_device_powershell (s : AudioApp) (_env : ShellEnv) (name : List Char) :
    AudioApp × List (List Char) :=
  (s, [fullCommand name])

/-- `AudioApp::set_default_device_by_name` (main.rs lines 165-174): try the
winapi strategy; on `Err` (which is its only outcome) fall back to the
PowerShell spawn.  The Rust function returns `()`: no outcome of any strategy
is reported to the caller. -/
def set_default_device_by_name (s : AudioApp) (env : ShellEnv) (name : List Char) :
    AudioApp × List (List Char) :=
  match set_default_device_winapi name with
  | Except.error _ => set_default_device_powershell s env name
  | Except.ok _ => (s, [])

/-- `AudioApp::set_default_device` (main.rs lines 128-136): return immediately
when the index is out of bounds, otherwise delegate to
`set_default_device_by_name` with the name at that index. -/
def set_default_device (s : AudioApp) (env : ShellEnv) (device_idx : Nat) :
    AudioApp × List (List Char) :=
  if h : device_idx < s.device_names.length then
    set_default_device_by_name s env (s.device_names.get ⟨device_idx, h⟩).toList
  else (s, [])

/-- The strategies that a call to `set_default_device_by_name` causes to be
attempted, in order, in environment `env`.  Derived from the source: the
winapi strategy is invoked first and always errors (main.rs line 194), which
unconditionally triggers the single spawned script `full_command`; in that
script the three statements are joined by `;`, PowerShell's unconditional
statement separator, so each included statement runs regardless of the
previous one's outcome.  Statement 1 is guarded by the `Get-Command` check,
statement 2 by the `Test-Path` check, and statement 3 is unguarded. -/
def attemptsOf (env : ShellEnv) : List Strategy :=
  Strategy.winapi ::
    ((if env.cmdletAvailable then [Strategy.cmdlet] else []) ++
     (if env.svvPresent then [Strategy.svv] else []) ++
     [Strategy.wmi])

/-- Whether a strategy, when attempted in `env`, switches the default device.
The winapi stub never succeeds (main.rs line 194); each shell strategy
succeeds when its tool is present and its action works. -/
def strategySucceeds (env : ShellEnv) : Strategy → Bool
  | Strategy.winapi => false
  | Strategy.cmdlet => env.cmdletAvailable && env.cmdletSucceeds
  | Strategy.svv => env.svvPresent && env.svvSucceeds
  | Strategy.wmi => env.wmiSucceeds

/-- Outcome type of the spec's `set_default` contract.  Modelled from the
spec: "success, or exhausted (all strategies failed), carried back to the
caller as an error condition". -/
inductive SwitchOutcome
  | success
  | exhausted
deriving DecidableEq

/-- Reader of a PowerShell single-quoted string body: consumes characters
after the opening quote, treating `''` as an escaped quote, until the closing
lone quote; returns the unescaped body and the remaining characters, or `none`
if the string is unterminated. -/
def sqRead : List Char → Option (List Char × List Char)
  | [] => none
  | c :: cs =>
    if c = sqc then
      match cs with
      | [] => some ([], [])
      | c2 :: cs2 =>
        if c2 = sqc then
          match sqRead cs2 with
          | some (body, rest) => some (sqc :: body, rest)
          | none => none
        else some ([], c2 :: cs2)
    else
      match sqRead cs with
      | some (body, rest) => some (c :: body, rest)
      | none => none

theorem sqRead_sq_sq (cs : List Char) :
    sqRead (sqc :: sqc :: cs) = (sqRead cs).map fun p => (sqc :: p.1, p.2) := by
  cases h : sqRead cs with
  | none => simp [sqRead, h]
  | some p =>
    obtain ⟨b, r⟩ := p
    simp [sqRead, h]

theorem sqRead_sq_cons_ne (c2 : Char) (cs : List Char) (h : ¬ c2 = sqc) :
    sqRead (sqc :: c2 :: cs) = some ([], c2 :: cs) := by
  simp [sqRead, h]

theorem sqRead_cons_of_ne (c : Char) (cs : List Char) (h : ¬ c = sqc) :
    sqRead (c :: cs) = (sqRead cs).map fun p => (c :: p.1, p.2) := by
  cases hc : sqRead cs with
  | none =>
    unfold sqRead
    rw [if_neg h, hc]
    rfl
  | some p =>
    obtain ⟨b, r⟩ := p
    unfold sqRead
    rw [if_neg h, hc]
    rfl

/-- Reading a single-quote-escaped name followed by anything parses through the
whole escaped name (never stopping inside it, because every quote in it is
doubled) and continues into the suffix. -/
theorem sqRead_escapeSQ_append (name suffix : List Char) :
    sqRead (escapeSQ name ++ suffix) = (sqRead suffix).map fun p => (name ++ p.1, p.2) := by
  induction name with
  | nil =>
    simp only [escapeSQ, List.nil_append]
    cases sqRead suffix with
    | none => rfl
    | some p => rfl
  | cons a as ih =>
    by_cases ha : a = sqc
    · subst ha
      have he : escapeSQ (sqc :: as) = sqc :: sqc :: escapeSQ as := by simp [escapeSQ]
      rw [he, List.cons_append, List.cons_append, sqRead_sq_sq, ih]
      cases sqRead suffix with
      | none => rfl
      | some p => rfl
    · have he : escapeSQ (a :: as) = a :: escapeSQ as := by simp [escapeSQ, ha]
      rw [he, List.cons_append, sqRead_cons_of_ne a _ ha, ih]
      cases sqRead suffix with
      | none => rfl
      | some p => rfl

/-- A name containing a single quote escapes to a string containing the
doubled quote. -/
theorem escapeSQ_doubles (name : List Char) (h : sqc ∈ name) :
    ∃ u v, escapeSQ name = u ++ [sqc, sqc] ++ v := by
  induction name with
  | nil => cases h
  | cons a as ih =>
    by_cases ha : a = sqc
    · subst ha
      exact ⟨[], escapeSQ as, by simp [escapeSQ]⟩
    · have hmem : sqc ∈ as := by
        rcases List.mem_cons.mp h with h1 | h2
        · exact absurd h1.symm ha
        · exact h2
      obtain ⟨u, v, huv⟩ := ih hmem
      exact ⟨a :: u, v, by simp [escapeSQ, ha, huv]⟩

/-- Fixture: OS master session at volume 0.5, unmuted. -/
def sess0 : SessionState := { volume := 1/2, muted := false }

/-- Fixture: app with two devices, the first selected, a present controller
and a resolvable session. -/
def app0 : AudioApp :=
  { device_names := ["Speakers", "Headphones"]
    selected_device_idx := some 0
    volume := 1/2
    is_muted := false
    audio_controller := some { session := some sess0 } }

/-- Fixture: app whose controller handle is absent. -/
def appNoCtl : AudioApp := { app0 with audio_controller := none }

/-- Fixture: app whose controller is present but whose master session does not
resolve. -/
def appNoSess : AudioApp := { app0 with audio_controller := some { session := none } }

/-- Environment with no optional tools and every strategy failing. -/
def envAllFail : ShellEnv :=
  { cmdletAvailable := false, svvPresent := false,
    cmdletSucceeds := false, svvSucceeds := false, wmiSucceeds := false }

/-- Environment with every tool present and every strategy succeeding. -/
def envAllOk : ShellEnv :=
  { cmdletAvailable := true, svvPresent := true,
    cmdletSucceeds := true, svvSucceeds := true, wmiSucceeds := true }

/-- Fixture device name. -/
def nameSpeakers : List Char := "Speakers".toList

/-- Fixture device name containing a single quote. -/
def nameOReilly : List Char := "O\x27Reilly USB Audio".toList

/-- C1 counterexample: on the fixture state with a resolvable session,
`set_volume 1.5` stores 1.5 — both the claim's demanded clamp result (1.0) and
the fact that the stored cache differs from it are checked at this concrete
input, so the claim "the value is clamped into [0.0, 1.0] before being applied
and cached" is false of the source. -/
theorem C1_counterexample :
    sessionOf app0 = some sess0 ∧
    (set_volume app0 (3/2)).volume = 3/2 ∧
    clampSpec (3/2) = 1 ∧
    ¬ (set_volume app0 (3/2)).volume = clampSpec (3/2) := by
  have h3 : clampSpec (3/2) = 1 := by
    unfold clampSpec
    rw [min_eq_right (by norm_num), max_eq_right (by norm_num)]
  refine ⟨rfl, rfl, h3, ?_⟩
  rw [h3]
  show ¬ (3/2 : Rat) = 1
  norm_num

/-- C1 amended: for every volume input `v`, calling `set_volume v` on a
resolvable session stores `v` itself — unclamped and unvalidated — into both
the OS session and the local cache; no clamping into [0.0, 1.0] occurs, so
`set_volume 1.5` yields stored volume 1.5. -/
theorem C1_amended_set_volume_stores_unclamped (s : AudioApp) (c : AudioController)
    (sess : SessionState) (v : Rat)
    (hc : s.audio_controller = some c) (hs : c.session = some sess) :
    (set_volume s v).volume = v ∧
    sessionOf (set_volume s v) = some { sess with volume := v } := by
  simp [set_volume, sessionOf, hc, hs]

/-- Witness for the amended C1 at the fixture state and input 1.5. -/
theorem C1_amended_witness :
    (set_volume app0 (3/2)).volume = 3/2 ∧
    sessionOf (set_volume app0 (3/2)) = some { sess0 with volume := 3/2 } :=
  C1_amended_set_volume_stores_unclamped app0 { session := some sess0 } sess0 (3/2) rfl rfl

/-- C2 counterexample: with DeviceList = ["Speakers", "Headphones"] and
Selection = some 0, refreshing against an OS report of only ["Headphones"]
yields DeviceList = ["Headphones"] but Selection = some 0, not none: the index
0 is still within the shrunken list's bounds, so the source does not clear
it.  The claim's expected Selection = none is false of the source. -/
theorem C2_counterexample :
    app0.device_names = ["Speakers", "Headphones"] ∧
    app0.selected_device_idx = some 0 ∧
    (refresh_devices app0 ["Headphones"]).device_names = ["Headphones"] ∧
    (refresh_devices app0 ["Headphones"]).selected_device_idx = some 0 ∧
    ¬ (refresh_devices app0 ["Headphones"]).selected_device_idx = none := by decide

/-- C2 amended: refresh_devices replaces the device list with the OS report
and clears a previous selection only when its index is no longer strictly
below the new list's length; in the claim's scenario (previous index 0, new
list ["Headphones"] of length 1) the selection is therefore kept as some 0,
now denoting "Headphones". -/
theorem C2_amended_refresh_clears_only_out_of_bounds (s : AudioApp)
    (osNames : List String) (idx : Nat) (hsel : s.selected_device_idx = some idx) :
    (refresh_devices s osNames).device_names = osNames ∧
    (refresh_devices s osNames).selected_device_idx =
      (if idx ≥ osNames.length then none else some idx) := by
  unfold refresh_devices
  simp only [hsel]
  by_cases hge : idx ≥ osNames.length
  · rw [if_pos hge, if_pos hge]
    exact ⟨rfl, rfl⟩
  · rw [if_neg hge, if_neg hge]
    exact ⟨rfl, rfl⟩

/-- Witness for the amended C2 at the claim's scenario. -/
theorem C2_amended_witness :
    (refresh_devices app0 ["Headphones"]).device_names = ["Headphones"] ∧
    (refresh_devices app0 ["Headphones"]).selected_device_idx =
      (if 0 ≥ (["Headphones"] : List String).length then none else some 0) :=
  C2_amended_refresh_clears_only_out_of_bounds app0 ["Headphones"] 0 rfl

/-- C6: after every call to refresh_devices, the selection is either none or
an index strictly below the length of the (new) device list — never out of
bounds, including when the list shrinks. -/
theorem C6_refresh_selection_in_bounds (s : AudioApp) (osNames : List String) :
    (refresh_devices s osNames).selected_device_idx = none ∨
    ∃ i, (refresh_devices s osNames).selected_device_idx = some i ∧
      i < (refresh_devices s osNames).device_names.length := by
  unfold refresh_devices
  cases hsel : s.selected_device_idx with
  | none => exact Or.inl rfl
  | some idx =>
    simp only [hsel]
    by_cases hge : idx ≥ osNames.length
    · rw [if_pos hge]
      exact Or.inl rfl
    · rw [if_neg hge]
      exact Or.inr ⟨idx, rfl, Nat.lt_of_not_le hge⟩

/-- C3 counterexample: in the environment with no optional third-party tools
where the native strategy fails (it always does) and every shell strategy
fails, the caller-visible result of `set_default_device_by_name` is identical
to its result in the environment where every strategy succeeds, and the state
is returned unchanged: no exhausted/failed SwitchOutcome is reported as an
error condition — the Rust function returns `()` and discards the spawn
result, so exhaustion completes as a silent no-op toward the caller. -/
theorem C3_counterexample :
    (strategySucceeds envAllFail Strategy.winapi = false ∧
     strategySucceeds envAllFail Strategy.cmdlet = false ∧
     strategySucceeds envAllFail Strategy.svv = false ∧
     strategySucceeds envAllFail Strategy.wmi = false) ∧
    set_default_device_by_name app0 envAllFail nameSpeakers =
      set_default_device_by_name app0 envAllOk nameSpeakers ∧
    (set_default_device_by_name app0 envAllFail nameSpeakers).1 = app0 :=
  ⟨⟨rfl, rfl, rfl, rfl⟩, rfl, rfl⟩

/-- C3 amended: a default-device switch reports no SwitchOutcome at all: in
every environment — including total strategy exhaustion — the call behaves
identically (it cannot observe the strategies' outcomes: the winapi error is
swallowed as the designed fallback trigger and the spawn result is discarded),
leaves the state unchanged, and its only effect is spawning the one combined
PowerShell script; failure is silent and only re-enumeration could reveal it. -/
theorem C3_amended_no_outcome_reported (s : AudioApp) (env env2 : ShellEnv)
    (name : List Char) :
    set_default_device_by_name s env name = set_default_device_by_name s env2 name ∧
    (set_default_device_by_name s env name).1 = s ∧
    (set_default_device_by_name s env name).2 = [fullCommand name] :=
  ⟨rfl, rfl, rfl⟩

/-- C4 counterexample: in an environment where strategy 2 (AudioDeviceCmdlets)
is available and succeeds, the attempted strategies are nevertheless
[winapi, cmdlet, svv, wmi]: strategies 3 and 4 are attempted after a
succeeding strategy 2, refuting "once a strategy succeeds, no later strategy
is attempted". -/
theorem C4_counterexample :
    strategySucceeds envAllOk Strategy.cmdlet = true ∧
    attemptsOf envAllOk = [Strategy.winapi, Strategy.cmdlet, Strategy.svv, Strategy.wmi] :=
  ⟨rfl, rfl⟩

/-- C4 amended: the native strategy is attempted first and always errors,
which unconditionally dispatches the remaining strategies as one spawned
PowerShell script whose statements are sequenced by `;`: strategies 2 and 3
are skipped only when their tool is unavailable, never because an earlier
strategy succeeded, and strategy 4 is attempted in every environment —
including any in which an earlier strategy succeeded. -/
theorem C4_amended_strategies_run_unconditionally (s : AudioApp) (env : ShellEnv)
    (name : List Char) :
    set_default_device_winapi name = Except.error "Using PowerShell fallback" ∧
    (set_default_device_by_name s env name).2 = [fullCommand name] ∧
    (attemptsOf env).head? = some Strategy.winapi ∧
    Strategy.wmi ∈ attemptsOf env := by
  refine ⟨rfl, rfl, rfl, ?_⟩
  unfold attemptsOf
  exact List.mem_cons_of_mem _ (by simp)

/-- C5: for every device name containing a single quote, (a) its
single-quote-escaped form contains the doubled quote, (b)/(d) the emitted
strategy-1 and strategy-4 commands interpolate exactly that escaped form
between the single-quote delimiters, (c)/(e) a PowerShell single-quoted-string
reader started after the opening quote consumes the whole interpolated name
(recovering it exactly, resp. `*name*`) and stops only at the intended closing
quote — the name never terminates the quoted argument early — and (f) the
double-quoting strategy-2 command interpolates the backslash-escaped form. -/
theorem C5_shell_quote_escaping (name : List Char) (h : sqc ∈ name) :
    (∃ u v, escapeSQ name = u ++ [sqc, sqc] ++ v) ∧
    psCommand1 name = psPre1.toList ++ escapeSQ name ++ psPost1.toList ∧
    sqRead (escapeSQ name ++ psPost1.toList) = some (name, psPost1.toList.tail) ∧
    psCommand3 name = psPre3.toList ++ escapeSQ name ++ psPost3.toList ∧
    sqRead ('*' :: escapeSQ name ++ psPost3.toList) =
      some ('*' :: name ++ ['*'], psPost3.toList.drop 2) ∧
    psCommand2 name = psPre2.toList ++ escapeDQ name ++ psPost2.toList := by
  refine ⟨escapeSQ_doubles name h, rfl, ?_, rfl, ?_, rfl⟩
  · rw [sqRead_escapeSQ_append]
    rw [show sqRead psPost1.toList = some ([], psPost1.toList.tail) from by decide]
    simp
  · have hstar : ¬ ('*' : Char) = sqc := by decide
    rw [List.cons_append, sqRead_cons_of_ne _ _ hstar, sqRead_escapeSQ_append]
    rw [show sqRead psPost3.toList = some (['*'], psPost3.toList.drop 2) from by decide]
    simp

/-- Witness for C5 at the device name `O'Reilly USB Audio`. -/
theorem C5_shell_quote_escaping_witness :
    sqc ∈ nameOReilly ∧
    sqRead (escapeSQ nameOReilly ++ psPost1.toList) = some (nameOReilly, psPost1.toList.tail) ∧
    psCommand2 nameOReilly = psPre2.toList ++ escapeDQ nameOReilly ++ psPost2.toList :=
  ⟨by decide, (C5_shell_quote_escaping nameOReilly (by decide)).2.2.1,
    (C5_shell_quote_escaping nameOReilly (by decide)).2.2.2.2.2⟩

/-- C7: from any state whose controller is present and whose master session
resolves, toggle_mute flips the freshly read OS mute value (independently of
the cached `is_muted`, over which the state is universally quantified), and a
second toggle restores the session to exactly its original state. -/
theorem C7_toggle_mute_involution (s : AudioApp) (c : AudioController)
    (sess : SessionState) (hc : s.audio_controller = some c) (hs : c.session = some sess) :
    (toggle_mute s).is_muted = !sess.muted ∧
    sessionOf (toggle_mute s) = some { sess with muted := !sess.muted } ∧
    (toggle_mute (toggle_mute s)).is_muted = sess.muted ∧
    sessionOf (toggle_mute (toggle_mute s)) = some sess := by
  simp [toggle_mute, sessionOf, hc, hs, Bool.not_not]

/-- Witness for C7 at the fixture state. -/
theorem C7_toggle_mute_involution_witness :
    (toggle_mute app0).is_muted = !sess0.muted ∧
    sessionOf (toggle_mute app0) = some { sess0 with muted := !sess0.muted } ∧
    (toggle_mute (toggle_mute app0)).is_muted = sess0.muted ∧
    sessionOf (toggle_mute (toggle_mute app0)) = some sess0 :=
  C7_toggle_mute_involution app0 { session := some sess0 } sess0 rfl rfl

/-- C8: when the master session cannot be resolved (controller absent or
session vanished), update_volume — the spec's refresh_session_state — leaves
the entire state, in particular the cached volume and mute values, untouched. -/
theorem C8_missing_session_preserves_cache (s : AudioApp) (h : sessionOf s = none) :
    update_volume s = s := by
  unfold update_volume
  cases hc : s.audio_controller with
  | none => rfl
  | some c =>
    cases hs : c.session with
    | none => simp [hs]
    | some sess =>
      exfalso
      rw [sessionOf, hc] at h
      simp [hs] at h

/-- Witness for C8 at the fixture state whose session does not resolve. -/
theorem C8_missing_session_preserves_cache_witness :
    sessionOf appNoSess = none ∧ update_volume appNoSess = appNoSess :=
  ⟨rfl, C8_missing_session_preserves_cache appNoSess rfl⟩

/-- C9: selecting a device index at or beyond the device list's length is a
no-op: the returned state is the input state, every field included, and no
switch command is spawned. -/
theorem C9_select_out_of_bounds_noop (s : AudioApp) (env : ShellEnv) (device_idx : Nat)
    (h : s.device_names.length ≤ device_idx) :
    set_default_device s env device_idx = (s, []) := by
  unfold set_default_device
  rw [dif_neg (by omega)]

/-- Witness for C9 at the fixture state (2 devices) and index 5. -/
theorem C9_select_out_of_bounds_noop_witness :
    app0.device_names.length ≤ 5 ∧ set_default_device app0 envAllFail 5 = (app0, []) :=
  ⟨by decide, C9_select_out_of_bounds_noop app0 envAllFail 5 (by decide)⟩

/-- C10: when the controller handle is absent, set_volume (for every input),
toggle_mute and update_volume all return the state unchanged — device list,
selection, cached volume and mute flag included. -/
theorem C10_absent_controller_noop (s : AudioApp) (v : Rat)
    (h : s.audio_controller = none) :
    set_volume s v = s ∧ toggle_mute s = s ∧ update_volume s = s := by
  unfold set_volume toggle_mute update_volume
  rw [h]
  exact ⟨rfl, rfl, rfl⟩

/-- Witness for C10 at the fixture state without a controller and input 0. -/
theorem C10_absent_controller_noop_witness :
    appNoCtl.audio_controller = none ∧
    (set_volume appNoCtl 0 = appNoCtl ∧ toggle_mute appNoCtl = appNoCtl ∧
     update_volume appNoCtl = appNoCtl) :=
  ⟨rfl, C10_absent_controller_noop appNoCtl 0 rfl⟩
